import Mathlib

/-!
Verification development for the thumbnail generator repository.

The embedding models:
  * a fragment of JavaScript number semantics (`JSNum`) with signed
    infinities and NaN, as produced by division by zero — needed because
    several claims are about degenerate-geometry inputs that make the
    source divide by zero;
  * the dimension snapper `getNearestValidSize` of the edit API route
    (src/unnamed/part_000, lines 52-83), decomposed into one definition
    per `const` binding of the source;
  * the three mask-projection paths of the UI layer:
    `getCanvasPoint`/`handleEditV1` (ThumbnailEditor variant 1),
    `captureSelection`/`handleEditV2` (ThumbnailEditor variant 2,
    lines 324-337 and 387-490), and `createMask` (ImageEditor,
    lines 70-88);
  * the edit API `POST` handler with its bounded polling loop
    (src/unnamed/part_000, lines 85-175), parametrised by the trace of
    poll results returned by the remote prediction service.

Finite JavaScript numbers are modelled by exact rationals; the claims
settled here do not hinge on float64 rounding, and every concrete input
used below evaluates identically in float64 and in exact arithmetic.
-/

/-- JavaScript number semantics fragment: a finite value (modelled as an
exact rational), positive or negative infinity, or NaN. -/
inductive JSNum where
  | fin (q : ℚ)
  | posInf
  | negInf
  | nan
deriving DecidableEq

/-- JavaScript subtraction on `JSNum`. -/
def jsSub : JSNum → JSNum → JSNum
  | JSNum.nan, _ => JSNum.nan
  | _, JSNum.nan => JSNum.nan
  | JSNum.fin a, JSNum.fin b => JSNum.fin (a - b)
  | JSNum.fin _, JSNum.posInf => JSNum.negInf
  | JSNum.fin _, JSNum.negInf => JSNum.posInf
  | JSNum.posInf, JSNum.fin _ => JSNum.posInf
  | JSNum.negInf, JSNum.fin _ => JSNum.negInf
  | JSNum.posInf, JSNum.posInf => JSNum.nan
  | JSNum.posInf, JSNum.negInf => JSNum.posInf
  | JSNum.negInf, JSNum.posInf => JSNum.negInf
  | JSNum.negInf, JSNum.negInf => JSNum.nan

/-- JavaScript multiplication on `JSNum` (`0 * Infinity = NaN`). -/
def jsMul : JSNum → JSNum → JSNum
  | JSNum.nan, _ => JSNum.nan
  | _, JSNum.nan => JSNum.nan
  | JSNum.fin a, JSNum.fin b => JSNum.fin (a * b)
  | JSNum.fin a, JSNum.posInf =>
      if 0 < a then JSNum.posInf else if a < 0 then JSNum.negInf else JSNum.nan
  | JSNum.fin a, JSNum.negInf =>
      if 0 < a then JSNum.negInf else if a < 0 then JSNum.posInf else JSNum.nan
  | JSNum.posInf, JSNum.fin b =>
      if 0 < b then JSNum.posInf else if b < 0 then JSNum.negInf else JSNum.nan
  | JSNum.negInf, JSNum.fin b =>
      if 0 < b then JSNum.negInf else if b < 0 then JSNum.posInf else JSNum.nan
  | JSNum.posInf, JSNum.posInf => JSNum.posInf
  | JSNum.posInf, JSNum.negInf => JSNum.negInf
  | JSNum.negInf, JSNum.posInf => JSNum.negInf
  | JSNum.negInf, JSNum.negInf => JSNum.posInf

/-- JavaScript division on `JSNum`: a nonzero finite value divided by zero
yields a signed infinity, `0 / 0` yields NaN. -/
def jsDiv : JSNum → JSNum → JSNum
  | JSNum.nan, _ => JSNum.nan
  | _, JSNum.nan => JSNum.nan
  | JSNum.fin a, JSNum.fin b =>
      if b = 0 then
        if a = 0 then JSNum.nan else if 0 < a then JSNum.posInf else JSNum.negInf
      else JSNum.fin (a / b)
  | JSNum.fin _, JSNum.posInf => JSNum.fin 0
  | JSNum.fin _, JSNum.negInf => JSNum.fin 0
  | JSNum.posInf, JSNum.fin b => if 0 ≤ b then JSNum.posInf else JSNum.negInf
  | JSNum.negInf, JSNum.fin b => if 0 ≤ b then JSNum.negInf else JSNum.posInf
  | JSNum.posInf, _ => JSNum.nan
  | JSNum.negInf, _ => JSNum.nan

/-- JavaScript `Math.abs` on `JSNum`. -/
def jsAbs : JSNum → JSNum
  | JSNum.fin a => JSNum.fin |a|
  | JSNum.posInf => JSNum.posInf
  | JSNum.negInf => JSNum.posInf
  | JSNum.nan => JSNum.nan

/-- JavaScript `Math.round` on `JSNum`: for finite `x` this is
`Math.floor(x + 0.5)` (round half towards positive infinity). -/
def jsRound : JSNum → JSNum
  | JSNum.fin a => JSNum.fin ((⌊a + 1/2⌋ : ℤ) : ℚ)
  | JSNum.posInf => JSNum.posInf
  | JSNum.negInf => JSNum.negInf
  | JSNum.nan => JSNum.nan

/-- JavaScript strict comparison on `JSNum`: any comparison involving NaN
is false. -/
def jsLt : JSNum → JSNum → Bool
  | JSNum.fin a, JSNum.fin b => a < b
  | JSNum.fin _, JSNum.posInf => true
  | JSNum.negInf, JSNum.fin _ => true
  | JSNum.negInf, JSNum.posInf => true
  | _, _ => false

/-- The finite rational value of a `JSNum`, defaulting to `0` for the
non-finite values. -/
def JSNum.toQ : JSNum → ℚ
  | JSNum.fin q => q
  | _ => 0

/-- Valid sizes for the model (src/unnamed/part_000, line 52). -/
def VALID_SIZES : List ℕ :=
  [64, 128, 192, 256, 320, 384, 448, 512, 576, 640, 704, 768, 832, 896, 960, 1024]

/-- Embedding of the `VALID_SIZES.reduce` pattern of the source
(lines 57-59, 66-68, 72-74): `l.reduce(f)` on the nonempty literal list is
a left fold of `f` over the tail starting from the head, so `nearestValid t`
folds the comparator `Math.abs(curr - t) < Math.abs(prev - t) ? curr : prev`
over the tail of `VALID_SIZES` starting from `64`. -/
def nearestValid (t : JSNum) : ℕ :=
  (VALID_SIZES.tail).foldl
    (fun (prev curr : ℕ) =>
      if jsLt (jsAbs (jsSub (JSNum.fin (curr : ℚ)) t)) (jsAbs (jsSub (JSNum.fin (prev : ℚ)) t))
      then curr else prev)
    64

/-- The `nearestWidth` binding of `getNearestValidSize`
(src/unnamed/part_000, lines 57-59). -/
def nearestWidthOf (w : JSNum) : ℕ := nearestValid w

/-- The `aspectRatio` binding (line 62): `height / width`. -/
def aspectRatioOf (w h : JSNum) : JSNum := jsDiv h w

/-- The `scaledHeight` binding (line 63):
`Math.round(nearestWidth * aspectRatio)`. -/
def scaledHeightOf (w h : JSNum) : JSNum :=
  jsRound (jsMul (JSNum.fin (nearestWidthOf w)) (aspectRatioOf w h))

/-- The `nearestHeight` binding (lines 66-68): the lattice value nearest
to `scaledHeight`. -/
def nearestHeightOf (w h : JSNum) : ℕ := nearestValid (scaledHeightOf w h)

/-- The `heightBasedWidth` binding (line 71):
`Math.round(nearestHeight / aspectRatio)`. -/
def heightBasedWidthOf (w h : JSNum) : JSNum :=
  jsRound (jsDiv (JSNum.fin (nearestHeightOf w h)) (aspectRatioOf w h))

/-- The `nearestWidthFromHeight` binding (lines 72-74). -/
def nearestWidthFromHeightOf (w h : JSNum) : ℕ :=
  nearestValid (heightBasedWidthOf w h)

/-- The `widthFirstError` binding (line 77):
`Math.abs(scaledHeight / nearestWidth - aspectRatio)`. -/
def widthFirstErrorOf (w h : JSNum) : JSNum :=
  jsAbs (jsSub (jsDiv (scaledHeightOf w h) (JSNum.fin (nearestWidthOf w))) (aspectRatioOf w h))

/-- The `heightFirstError` binding (line 78):
`Math.abs(nearestHeight / nearestWidthFromHeight - aspectRatio)`. -/
def heightFirstErrorOf (w h : JSNum) : JSNum :=
  jsAbs (jsSub (jsDiv (JSNum.fin (nearestHeightOf w h)) (JSNum.fin (nearestWidthFromHeightOf w h)))
    (aspectRatioOf w h))

/-- Embedding of `getNearestValidSize` (src/unnamed/part_000,
lines 55-83), returning the `(width, height)` pair. -/
def getNearestValidSize (w h : JSNum) : ℕ × ℕ :=
  if jsLt (widthFirstErrorOf w h) (heightFirstErrorOf w h)
  then (nearestWidthOf w, nearestHeightOf w h)
  else (nearestWidthFromHeightOf w h, nearestHeightOf w h)

/-- Formalisation of claim C7's selection rule, following the claim's
words: compare the aspect-ratio errors of the two candidate pairs computed
from each candidate's actual components, and on a tie return the
width-first candidate. -/
def claimSelection (w h : JSNum) : ℕ × ℕ :=
  let nW := nearestWidthOf w
  let nH := nearestHeightOf w h
  let nWFH := nearestWidthFromHeightOf w h
  let r := aspectRatioOf w h
  let wfe := jsAbs (jsSub (jsDiv (JSNum.fin nH) (JSNum.fin nW)) r)
  let hfe := jsAbs (jsSub (jsDiv (JSNum.fin nH) (JSNum.fin nWFH)) r)
  if jsLt hfe wfe then (nWFH, nH) else (nW, nH)

lemma foldl_choice_mem (g : ℕ → ℕ → Bool) :
    ∀ (l : List ℕ) (a : ℕ),
      l.foldl (fun prev curr => if g prev curr then curr else prev) a ∈ a :: l := by
  intro l
  induction l with
  | nil => intro a; simp
  | cons c tl ih =>
      intro a
      simp only [List.foldl_cons]
      by_cases hg : g a c
      · simp only [hg, if_true]
        rcases List.mem_cons.mp (ih c) with h | h
        · simp [h]
        · simp [List.mem_cons, h]
      · simp only [hg, if_false]
        rcases List.mem_cons.mp (ih a) with h | h
        · simp [h]
        · simp [List.mem_cons, h]

lemma nearestValid_mem (t : JSNum) : nearestValid t ∈ VALID_SIZES := by
  have h := foldl_choice_mem
    (fun prev curr =>
      jsLt (jsAbs (jsSub (JSNum.fin curr) t)) (jsAbs (jsSub (JSNum.fin prev) t)))
    VALID_SIZES.tail 64
  simpa [nearestValid, VALID_SIZES] using h

lemma valid_sizes_pos : ∀ c ∈ VALID_SIZES, 0 < c := by decide

lemma nearestValid_pos (t : JSNum) : 0 < nearestValid t :=
  valid_sizes_pos _ (nearestValid_mem t)

lemma jsDiv_fin_fin (a b : ℚ) (hb : b ≠ 0) :
    jsDiv (JSNum.fin a) (JSNum.fin b) = JSNum.fin (a / b) := by
  simp [jsDiv, hb]

lemma nearestValid_cast_ne (t : JSNum) : ((nearestValid t : ℕ) : ℚ) ≠ 0 := by
  exact_mod_cast (nearestValid_pos t).ne'

lemma scaledHeightOf_fin (w h : ℚ) (hw : w ≠ 0) :
    scaledHeightOf (JSNum.fin w) (JSNum.fin h)
      = JSNum.fin ((⌊(nearestWidthOf (JSNum.fin w) : ℚ) * (h / w) + 1/2⌋ : ℤ) : ℚ) := by
  rw [scaledHeightOf, aspectRatioOf, jsDiv_fin_fin h w hw]
  rfl

/-- C5: for every input pair (w, h) with w > 0 and h > 0, both components
of the pair returned by `getNearestValidSize` are members of the fixed
size lattice `VALID_SIZES`. -/
theorem snap_lattice_membership (w h : ℚ) (hw : 0 < w) (hh : 0 < h) :
    (getNearestValidSize (JSNum.fin w) (JSNum.fin h)).1 ∈ VALID_SIZES ∧
    (getNearestValidSize (JSNum.fin w) (JSNum.fin h)).2 ∈ VALID_SIZES := by
  unfold getNearestValidSize
  split
  · exact ⟨nearestValid_mem _, nearestValid_mem _⟩
  · exact ⟨nearestValid_mem _, nearestValid_mem _⟩

/-- Witness for C5 at (w, h) = (100, 500). -/
theorem snap_lattice_membership_witness :
    (getNearestValidSize (JSNum.fin 100) (JSNum.fin 500)).1 ∈ VALID_SIZES ∧
    (getNearestValidSize (JSNum.fin 100) (JSNum.fin 500)).2 ∈ VALID_SIZES :=
  snap_lattice_membership 100 500 (by norm_num) (by norm_num)

/-- C6 counterexample: at (width, height) = (100, 500) the snapper's
`nearestHeight` is 640, the lattice value nearest to the width-derived
scaled height `round(128 * 5) = 640`, and not the lattice value nearest
to the original height 500, which is 512. -/
theorem snap_height_first_counterexample :
    nearestHeightOf (JSNum.fin 100) (JSNum.fin 500) ≠ nearestValid (JSNum.fin 500) ∧
    nearestHeightOf (JSNum.fin 100) (JSNum.fin 500) = 640 ∧
    nearestValid (JSNum.fin 500) = 512 := by
  norm_num [nearestHeightOf, scaledHeightOf, nearestWidthOf, aspectRatioOf,
    nearestValid, VALID_SIZES, jsLt, jsAbs, jsSub, jsDiv, jsMul, jsRound]

/-- C6 amended: for positive inputs the height-first candidate takes
`nearestHeight` as the lattice value nearest to the width-derived scaled
height (not the original height), then back-derives
`widthFromHeight = round(nearestHeight * width / height)` — the source
writes this as `round(nearestHeight / aspectRatio)`, which agrees — and
snaps that to the lattice. -/
theorem snap_height_first_amended (w h : ℚ) (hw : 0 < w) (hh : 0 < h) :
    nearestHeightOf (JSNum.fin w) (JSNum.fin h)
      = nearestValid (scaledHeightOf (JSNum.fin w) (JSNum.fin h)) ∧
    heightBasedWidthOf (JSNum.fin w) (JSNum.fin h)
      = jsRound (jsDiv
          (jsMul (JSNum.fin ((nearestHeightOf (JSNum.fin w) (JSNum.fin h) : ℕ) : ℚ)) (JSNum.fin w))
          (JSNum.fin h)) ∧
    nearestWidthFromHeightOf (JSNum.fin w) (JSNum.fin h)
      = nearestValid (heightBasedWidthOf (JSNum.fin w) (JSNum.fin h)) := by
  have hw' : w ≠ 0 := ne_of_gt hw
  have hh' : h ≠ 0 := ne_of_gt hh
  have hr : h / w ≠ 0 := div_ne_zero hh' hw'
  refine ⟨rfl, ?_, rfl⟩
  rw [heightBasedWidthOf, aspectRatioOf, jsDiv_fin_fin h w hw']
  simp only [jsMul]
  rw [jsDiv_fin_fin _ _ hr, jsDiv_fin_fin _ h hh', div_div_eq_mul_div]

/-- Witness for C6 amended at (w, h) = (100, 500). -/
theorem snap_height_first_amended_witness :
    nearestHeightOf (JSNum.fin 100) (JSNum.fin 500)
      = nearestValid (scaledHeightOf (JSNum.fin 100) (JSNum.fin 500)) ∧
    heightBasedWidthOf (JSNum.fin 100) (JSNum.fin 500)
      = jsRound (jsDiv
          (jsMul (JSNum.fin ((nearestHeightOf (JSNum.fin 100) (JSNum.fin 500) : ℕ) : ℚ)) (JSNum.fin 100))
          (JSNum.fin 500)) ∧
    nearestWidthFromHeightOf (JSNum.fin 100) (JSNum.fin 500)
      = nearestValid (heightBasedWidthOf (JSNum.fin 100) (JSNum.fin 500)) :=
  snap_height_first_amended 100 500 (by norm_num) (by norm_num)

/-- C7 counterexample: at (width, height) = (13, 8) the snapper returns
the width-first candidate (64, 64), while the claim's selection rule —
aspect-ratio errors computed from each candidate's actual components,
ties to width-first — selects (128, 64). The divergence arises because
the source computes the width-first error from the unsnapped
`scaledHeight` 39, not from the candidate's snapped height 64. -/
theorem snap_selection_counterexample :
    getNearestValidSize (JSNum.fin 13) (JSNum.fin 8) ≠ claimSelection (JSNum.fin 13) (JSNum.fin 8) ∧
    getNearestValidSize (JSNum.fin 13) (JSNum.fin 8) = (64, 64) ∧
    claimSelection (JSNum.fin 13) (JSNum.fin 8) = (128, 64) := by
  norm_num [getNearestValidSize, claimSelection, nearestWidthOf, nearestHeightOf,
    nearestWidthFromHeightOf, widthFirstErrorOf, heightFirstErrorOf, scaledHeightOf,
    heightBasedWidthOf, aspectRatioOf, nearestValid, VALID_SIZES, jsLt, jsAbs, jsSub,
    jsDiv, jsMul, jsRound, abs_of_pos, abs_of_nonpos]

/-- C7 amended: for positive inputs the snapper returns the width-first
candidate exactly when `|scaledHeight/nearestWidth - h/w|` is strictly
lower than `|nearestHeight/nearestWidthFromHeight - h/w|` — the
width-first error is computed from the unsnapped scaled height — and
otherwise, ties included, returns the height-first candidate. -/
theorem snap_selection_amended (w h : ℚ) (hw : 0 < w) (hh : 0 < h) :
    getNearestValidSize (JSNum.fin w) (JSNum.fin h) =
      if |(scaledHeightOf (JSNum.fin w) (JSNum.fin h)).toQ / (nearestWidthOf (JSNum.fin w) : ℚ) - h / w|
         < |((nearestHeightOf (JSNum.fin w) (JSNum.fin h) : ℕ) : ℚ)
             / ((nearestWidthFromHeightOf (JSNum.fin w) (JSNum.fin h) : ℕ) : ℚ) - h / w|
      then (nearestWidthOf (JSNum.fin w), nearestHeightOf (JSNum.fin w) (JSNum.fin h))
      else (nearestWidthFromHeightOf (JSNum.fin w) (JSNum.fin h),
            nearestHeightOf (JSNum.fin w) (JSNum.fin h)) := by
  have hw' : w ≠ 0 := ne_of_gt hw
  have hsq := scaledHeightOf_fin w h hw'
  have h1 : ((nearestWidthOf (JSNum.fin w) : ℕ) : ℚ) ≠ 0 := nearestValid_cast_ne _
  have h2 : ((nearestWidthFromHeightOf (JSNum.fin w) (JSNum.fin h) : ℕ) : ℚ) ≠ 0 :=
    nearestValid_cast_ne _
  rw [getNearestValidSize, widthFirstErrorOf, heightFirstErrorOf, aspectRatioOf,
    jsDiv_fin_fin h w hw', hsq, jsDiv_fin_fin _ _ h1, jsDiv_fin_fin _ _ h2]
  simp only [jsSub, jsAbs, jsLt, JSNum.toQ, decide_eq_true_eq]

/-- Witness for C7 amended at (w, h) = (13, 8). -/
theorem snap_selection_amended_witness :
    getNearestValidSize (JSNum.fin 13) (JSNum.fin 8) =
      if |(scaledHeightOf (JSNum.fin 13) (JSNum.fin 8)).toQ / (nearestWidthOf (JSNum.fin 13) : ℚ) - 8 / 13|
         < |((nearestHeightOf (JSNum.fin 13) (JSNum.fin 8) : ℕ) : ℚ)
             / ((nearestWidthFromHeightOf (JSNum.fin 13) (JSNum.fin 8) : ℕ) : ℚ) - 8 / 13|
      then (nearestWidthOf (JSNum.fin 13), nearestHeightOf (JSNum.fin 13) (JSNum.fin 8))
      else (nearestWidthFromHeightOf (JSNum.fin 13) (JSNum.fin 8),
            nearestHeightOf (JSNum.fin 13) (JSNum.fin 8)) :=
  snap_selection_amended 13 8 (by norm_num) (by norm_num)

/-- C8: called with width 0 (or height 0) the snapper does not fail with
an InvalidDimension error; it divides by zero, propagates
Infinity and NaN through the lattice scans — every comparison against
NaN is false, so each scan returns the first lattice element — and
silently returns a result. -/
theorem snap_zero_dimension_no_error :
    getNearestValidSize (JSNum.fin 0) (JSNum.fin 100) = (64, 64) ∧
    getNearestValidSize (JSNum.fin 100) (JSNum.fin 0) = (128, 64) := by
  norm_num [getNearestValidSize, nearestWidthOf, nearestHeightOf,
    nearestWidthFromHeightOf, widthFirstErrorOf, heightFirstErrorOf, scaledHeightOf,
    heightBasedWidthOf, aspectRatioOf, nearestValid, VALID_SIZES, jsLt, jsAbs, jsSub,
    jsDiv, jsMul, jsRound]

/-- A selection rectangle as held in UI state: origin and extent. -/
structure Rect where
  x : ℚ
  y : ℚ
  width : ℚ
  height : ℚ
deriving DecidableEq

/-- A mask bitmap: pixel dimensions plus the single rectangle passed to
the white `fillRect` call, if that call painted (`none` = all black). -/
structure Mask where
  width : ℕ
  height : ℕ
  painted : Option (ℚ × ℚ × ℚ × ℚ)
deriving DecidableEq

/-- Canvas `fillRect` semantics: record the painted rectangle; per the
canvas specification a call with any non-finite argument does nothing. -/
def fillRectJS (m : Mask) (x y w h : JSNum) : Mask :=
  match x, y, w, h with
  | JSNum.fin a, JSNum.fin b, JSNum.fin c, JSNum.fin d => { m with painted := some (a, b, c, d) }
  | _, _, _, _ => m

/-- Colour of pixel (i, j) of a mask: white (true) exactly when the pixel
lies inside the bitmap and inside the painted rectangle; the rasteriser
clips the painted rectangle to the bitmap. -/
def maskPixel (m : Mask) (i j : ℤ) : Bool :=
  match m.painted with
  | none => false
  | some (a, b, c, d) =>
      decide (0 ≤ i ∧ i < (m.width : ℤ) ∧ 0 ≤ j ∧ j < (m.height : ℤ) ∧
        a ≤ (i : ℚ) ∧ (i : ℚ) < a + c ∧ b ≤ (j : ℚ) ∧ (j : ℚ) < b + d)

/-- The rectangle handed to the white `fillRect` call lies entirely
within `[0, width] × [0, height]` of the mask bitmap. -/
def rectWithinBounds (m : Mask) : Prop :=
  match m.painted with
  | none => True
  | some (a, b, c, d) => 0 ≤ a ∧ 0 ≤ b ∧ a + c ≤ (m.width : ℚ) ∧ b + d ≤ (m.height : ℚ)

/-- Embedding of `getCanvasPoint` (src/components/ThumbnailEditor.tsx,
lines 89-101; the same formula appears in `startDrawing`/`draw` of the
second variant, lines 324-337 and 346-351): a client-space mouse position
is scaled by `canvas.width / rect.width` per axis, where `rect` is the
canvas's bounding client rectangle (its display size). -/
def getCanvasPoint (clientX clientY rectLeft rectTop rectW rectH : ℚ)
    (canvasW canvasH : ℕ) : JSNum × JSNum :=
  (jsMul (jsSub (JSNum.fin clientX) (JSNum.fin rectLeft))
     (jsDiv (JSNum.fin (canvasW : ℚ)) (JSNum.fin rectW)),
   jsMul (jsSub (JSNum.fin clientY) (JSNum.fin rectTop))
     (jsDiv (JSNum.fin (canvasH : ℚ)) (JSNum.fin rectH)))

/-- Selection capture for a drag from client point (sx, sy) to (cx, cy)
(ThumbnailEditor, `handleMouseMove` lines 109-120 and `draw`
lines 375-380): both endpoints go through the `getCanvasPoint` scaling,
then the stored selection takes the minimum corner and absolute extents.
Modelled for the finite case; the degenerate zero-size bounding rectangle
is settled separately on `getCanvasPoint` itself. -/
def captureSelection (sx sy cx cy rectLeft rectTop rectW rectH : ℚ)
    (canvasW canvasH : ℕ) : Option Rect :=
  match getCanvasPoint sx sy rectLeft rectTop rectW rectH canvasW canvasH,
        getCanvasPoint cx cy rectLeft rectTop rectW rectH canvasW canvasH with
  | (JSNum.fin px, JSNum.fin py), (JSNum.fin qx, JSNum.fin qy) =>
      some ⟨min px qx, min py qy, |qx - px|, |qy - py|⟩
  | _, _ => none

/-- Mask synthesis of `handleEdit` in ThumbnailEditor variant 1
(lines 139-156): the mask canvas takes the backing canvas's pixel
dimensions, is filled black, and the stored selection is painted white
with no further scaling. -/
def handleEditV1 (canvasW canvasH : ℕ) (sel : Rect) : Mask :=
  fillRectJS ⟨canvasW, canvasH, none⟩
    (JSNum.fin sel.x) (JSNum.fin sel.y) (JSNum.fin sel.width) (JSNum.fin sel.height)

/-- Mask synthesis of `handleEdit` in ThumbnailEditor variant 2
(lines 387-447): original dimensions are parsed from the canvas dataset
(`parseInt(... || '0')`, rejected when 0); the mask canvas takes the
original dimensions, is filled black, and the stored selection is scaled
by `original / offset` (true size over display size) per axis, rounded,
and painted white. -/
def handleEditV2 (origW origH : ℕ) (offsetW offsetH : ℚ) (sel : Rect) :
    Except String Mask :=
  if origW = 0 ∨ origH = 0 then Except.error "Original image dimensions not found"
  else
    let scaleX := jsDiv (JSNum.fin (origW : ℚ)) (JSNum.fin offsetW)
    let scaleY := jsDiv (JSNum.fin (origH : ℚ)) (JSNum.fin offsetH)
    Except.ok (fillRectJS ⟨origW, origH, none⟩
      (jsRound (jsMul (JSNum.fin sel.x) scaleX))
      (jsRound (jsMul (JSNum.fin sel.y) scaleY))
      (jsRound (jsMul (JSNum.fin sel.width) scaleX))
      (jsRound (jsMul (JSNum.fin sel.height) scaleY)))

/-- Embedding of `createMask` (src/components/ImageEditor.tsx,
lines 70-88): the mask canvas takes the backing canvas's pixel
dimensions, is filled black, and the stored selection — captured in raw
client coordinates with no scaling (`startDrawing`/`draw`, lines 20-64) —
is painted white unchanged. -/
def createMask (canvasW canvasH : ℕ) (sel : Rect) : Mask :=
  fillRectJS ⟨canvasW, canvasH, none⟩
    (JSNum.fin sel.x) (JSNum.fin sel.y) (JSNum.fin sel.width) (JSNum.fin sel.height)

lemma fillRectJS_width (m : Mask) (x y w h : JSNum) :
    (fillRectJS m x y w h).width = m.width := by
  unfold fillRectJS
  cases x <;> cases y <;> cases w <;> cases h <;> rfl

lemma fillRectJS_height (m : Mask) (x y w h : JSNum) :
    (fillRectJS m x y w h).height = m.height := by
  unfold fillRectJS
  cases x <;> cases y <;> cases w <;> cases h <;> rfl

/-- C1: for the display-space drag (0,0)-(50,50) with display size
100x100 and true size 200x200, the cited projection path (variant 2
capture followed by variant 2 handleEdit) scales the selection twice —
capture already yields the true-space rectangle (0,0,100,100), and
handleEdit scales it again to (0,0,200,200) — so pixel (150,150) is
white although the claimed white region (0,0,100,100) excludes it; the
ImageEditor path scales zero times, painting only (0,0,50,50), so pixel
(60,60) is black although the claim requires it white. Neither cited
path scales exactly once. -/
theorem projection_double_scaling :
    captureSelection 0 0 50 50 0 0 100 100 200 200 = some ⟨0, 0, 100, 100⟩ ∧
    handleEditV2 200 200 100 100 ⟨0, 0, 100, 100⟩
      = Except.ok ⟨200, 200, some (0, 0, 200, 200)⟩ ∧
    maskPixel ⟨200, 200, some (0, 0, 200, 200)⟩ 150 150 = true ∧
    createMask 200 200 ⟨0, 0, 50, 50⟩ = ⟨200, 200, some (0, 0, 50, 50)⟩ ∧
    maskPixel ⟨200, 200, some (0, 0, 50, 50)⟩ 60 60 = false := by
  norm_num [captureSelection, getCanvasPoint, handleEditV2, createMask, fillRectJS,
    maskPixel, jsSub, jsMul, jsDiv, jsRound, jsAbs, decide_eq_true_eq]

/-- C2: on every editor path, whenever a mask is produced its pixel
dimensions equal the dimensions the mask canvas was created with — the
true (native) image dimensions, never the display dimensions: variant 2
uses the parsed original dimensions, variant 1 and ImageEditor use the
backing canvas dimensions, which the image-load handlers set to
`naturalWidth`/`naturalHeight`. -/
theorem mask_dimensions_match_true_size (ow oh cw ch : ℕ) (dw dh : ℚ) (sel : Rect) :
    (∀ m : Mask, handleEditV2 ow oh dw dh sel = Except.ok m → m.width = ow ∧ m.height = oh) ∧
    ((handleEditV1 cw ch sel).width = cw ∧ (handleEditV1 cw ch sel).height = ch) ∧
    ((createMask cw ch sel).width = cw ∧ (createMask cw ch sel).height = ch) := by
  refine ⟨?_, ⟨rfl, rfl⟩, ⟨rfl, rfl⟩⟩
  intro m hm
  by_cases h0 : ow = 0 ∨ oh = 0
  · simp [handleEditV2, h0] at hm
  · simp only [handleEditV2, h0, if_false] at hm
    rw [Except.ok.injEq] at hm
    rw [← hm]
    exact ⟨fillRectJS_width _ _ _ _ _, fillRectJS_height _ _ _ _ _⟩

/-- Witness for C2 with true size 200x200 and display size 100x100. -/
theorem mask_dimensions_match_true_size_witness :
    (⟨200, 200, some (0, 0, 200, 200)⟩ : Mask).width = 200 ∧
    (⟨200, 200, some (0, 0, 200, 200)⟩ : Mask).height = 200 :=
  (mask_dimensions_match_true_size 200 200 200 200 100 100 ⟨0, 0, 100, 100⟩).1
    ⟨200, 200, some (0, 0, 200, 200)⟩
    (by norm_num [handleEditV2, fillRectJS, jsDiv, jsMul, jsRound])

/-- C3: no clipping is performed anywhere on the projection path. For the
display-space drag (50,50)-(100,100) with display size 100x100 and true
size 200x200, variant 2 capture yields (100,100,100,100) and handleEdit
hands `fillRect` the rectangle (200,200,200,200), whose far corner (400,
400) lies outside the 200x200 bitmap — the mask-building step receives
out-of-bounds coordinates. -/
theorem projection_not_clipped :
    captureSelection 50 50 100 100 0 0 100 100 200 200 = some ⟨100, 100, 100, 100⟩ ∧
    handleEditV2 200 200 100 100 ⟨100, 100, 100, 100⟩
      = Except.ok ⟨200, 200, some (200, 200, 200, 200)⟩ ∧
    ¬ rectWithinBounds ⟨200, 200, some (200, 200, 200, 200)⟩ := by
  norm_num [captureSelection, getCanvasPoint, handleEditV2, fillRectJS,
    rectWithinBounds, jsSub, jsMul, jsDiv, jsRound, jsAbs]

/-- C4: when the display (rendered) size is 0, no UnresolvedCanvas error
is raised anywhere: `getCanvasPoint` divides by the zero bounding-rect
width and returns Infinity coordinates, and variant 2's handleEdit
computes an Infinity scale factor, feeds non-finite coordinates to
`fillRect` (which silently paints nothing), and returns an all-black
mask without error. -/
theorem no_unresolved_canvas_error :
    getCanvasPoint 50 60 0 0 0 0 200 200 = (JSNum.posInf, JSNum.posInf) ∧
    handleEditV2 200 200 0 0 ⟨10, 10, 30, 30⟩ = Except.ok ⟨200, 200, none⟩ := by
  norm_num [getCanvasPoint, handleEditV2, fillRectJS, jsSub, jsMul, jsDiv, jsRound]

/-- JavaScript truthiness of an optional string field: absent, null and
the empty string are falsy. -/
def truthy : Option String → Bool
  | none => false
  | some s => s ≠ ""

/-- The `output` field of a prediction as returned by the remote service:
absent/null, a single URL string, or an array of URL strings. -/
inductive JsonOutput where
  | null
  | str (s : String)
  | arr (l : List String)
deriving DecidableEq

/-- The handler's output extraction (src/unnamed/part_000, line 134):
`Array.isArray(result.output) ? result.output[0] : result.output`. -/
def outputToUrl : JsonOutput → Option String
  | JsonOutput.null => none
  | JsonOutput.str s => some s
  | JsonOutput.arr l => l.head?

/-- One poll of the remote prediction service: the fields of the result
object the handler reads. -/
structure PollResult where
  error : Option String
  status : String
  output : JsonOutput

/-- The `maxAttempts` bound of the polling loop (line 121). -/
def maxAttempts : ℕ := 60

/-- The while loop of the handler (src/unnamed/part_000, lines 124-144),
with `remaining = maxAttempts - attempts` made structural: each iteration
reads poll result `res attempts`; a truthy error field throws, status
`succeeded` stores the extracted output and breaks, status `failed`
throws, anything else sleeps and retries. Exhausting the bound leaves
`resultImageUrl` null (`Except.ok none`). -/
def pollLoopAux (res : ℕ → PollResult) : ℕ → ℕ → Except String (Option String)
  | _, 0 => Except.ok none
  | attempts, remaining + 1 =>
    let r := res attempts
    if truthy r.error then Except.error ("Replicate error: " ++ r.error.getD "")
    else if r.status = "succeeded" then Except.ok (outputToUrl r.output)
    else if r.status = "failed" then Except.error "Image generation failed"
    else pollLoopAux res (attempts + 1) remaining

/-- The polling loop started at `attempts = 0` with the full bound. -/
def pollLoop (res : ℕ → PollResult) : Except String (Option String) :=
  pollLoopAux res 0 maxAttempts

/-- The JSON body of a request to the edit endpoint; the handler
destructures `prompt`, `image` and `mask` (line 87) and nothing else. -/
structure EditRequest where
  prompt : Option String
  image : Option String
  mask : Option String
  width : Option ℕ
  height : Option ℕ

/-- An HTTP response of the edit endpoint: the success body carries
`imageUrl`, the failure body carries `error`. -/
inductive ApiResponse where
  | ok (imageUrl : String)
  | err (message : String)
deriving DecidableEq

/-- Embedding of the edit route `POST` handler (src/unnamed/part_000,
lines 85-175), parametrised by the trace of poll results the remote
service returns: missing (or JS-falsy) prompt/image/mask gives 400;
a thrown error gives 500 with the error's message; a falsy
`resultImageUrl` after the loop gives the Timeout error as 500;
otherwise 200 with the URL. -/
def POST (req : EditRequest) (res : ℕ → PollResult) : ℕ × ApiResponse :=
  if ¬ truthy req.prompt ∨ ¬ truthy req.image ∨ ¬ truthy req.mask then
    (400, ApiResponse.err "Missing required fields (prompt, image, mask)")
  else
    match pollLoop res with
    | Except.error e => (500, ApiResponse.err e)
    | Except.ok o =>
      match o with
      | some u =>
          if u = "" then (500, ApiResponse.err "Timeout waiting for image generation")
          else (200, ApiResponse.ok u)
      | none => (500, ApiResponse.err "Timeout waiting for image generation")

/-- A poll result that keeps the loop going: no truthy error, and a
status that is neither `succeeded` nor `failed`. -/
def nonTerminal (r : PollResult) : Prop :=
  truthy r.error = false ∧ r.status ≠ "succeeded" ∧ r.status ≠ "failed"

lemma pollLoopAux_exhaust (res : ℕ → PollResult) :
    ∀ (remaining attempts : ℕ),
      (∀ i, attempts ≤ i → i < attempts + remaining → nonTerminal (res i)) →
      pollLoopAux res attempts remaining = Except.ok none := by
  intro remaining
  induction remaining with
  | zero => intro attempts _; rfl
  | succ k ih =>
      intro attempts hnt
      have h0 : nonTerminal (res attempts) := hnt attempts (le_refl attempts) (by omega)
      obtain ⟨he, hs, hf⟩ := h0
      simp only [pollLoopAux, he, Bool.false_eq_true, if_false, hs, hf]
      exact ih (attempts + 1) (fun i h1 h2 => hnt i (by omega) (by omega))

lemma pollLoopAux_succeeds (res : ℕ → PollResult) :
    ∀ (k remaining attempts : ℕ), k < remaining →
      (∀ i, attempts ≤ i → i < attempts + k → nonTerminal (res i)) →
      truthy (res (attempts + k)).error = false →
      (res (attempts + k)).status = "succeeded" →
      pollLoopAux res attempts remaining = Except.ok (outputToUrl (res (attempts + k)).output) := by
  intro k
  induction k with
  | zero =>
      intro remaining attempts hk _ he hs
      obtain ⟨r, rfl⟩ : ∃ r, remaining = r + 1 := ⟨remaining - 1, by omega⟩
      rw [Nat.add_zero] at he hs
      simp only [pollLoopAux, he, Bool.false_eq_true, if_false, hs, if_true, Nat.add_zero]
  | succ k ih =>
      intro remaining attempts hk hnt he hs
      obtain ⟨r, rfl⟩ : ∃ r, remaining = r + 1 := ⟨remaining - 1, by omega⟩
      have h0 : nonTerminal (res attempts) := hnt attempts (le_refl attempts) (by omega)
      obtain ⟨he0, hs0, hf0⟩ := h0
      simp only [pollLoopAux, he0, Bool.false_eq_true, if_false, hs0, hf0]
      have hshift : attempts + (k + 1) = attempts + 1 + k := by omega
      rw [hshift] at he hs ⊢
      exact ih r (attempts + 1) (by omega)
        (fun i h1 h2 => hnt i (by omega) (by omega)) he hs

/-- C9 counterexample: a well-formed request whose very first poll
reports status `succeeded` but with a null `output` is answered with the
Timeout error as a 500 response, not with a 200 response carrying the
reported output. -/
theorem poll_success_null_output_counterexample :
    POST ⟨some "p", some "img", some "mask", none, none⟩
      (fun _ => ⟨none, "succeeded", JsonOutput.null⟩)
      = (500, ApiResponse.err "Timeout waiting for image generation") := by
  have h : pollLoop (fun _ => ⟨none, "succeeded", JsonOutput.null⟩) = Except.ok none := by
    simp [pollLoop, maxAttempts, pollLoopAux, truthy, outputToUrl]
  simp [POST, h, truthy]

/-- C9 amended: for a well-formed edit request, if the remote prediction
reaches status `succeeded` on poll N with N < 60 after non-terminal
polls, and the extracted output is a non-empty URL, the handler returns
200 with that URL; a `succeeded` poll whose output is null or empty
instead falls through to the Timeout error (see the counterexample); and
if 60 polls complete with no terminal state, error payload or output,
the handler fails with the Timeout error reported as a 500 response. -/
theorem poll_loop_terminal_behaviour :
    (∀ (req : EditRequest) (res : ℕ → PollResult) (N : ℕ) (u : String),
      truthy req.prompt = true → truthy req.image = true → truthy req.mask = true →
      N < 60 →
      (∀ i, i < N → nonTerminal (res i)) →
      truthy (res N).error = false →
      (res N).status = "succeeded" →
      outputToUrl (res N).output = some u →
      u ≠ "" →
      POST req res = (200, ApiResponse.ok u)) ∧
    (∀ (req : EditRequest) (res : ℕ → PollResult),
      truthy req.prompt = true → truthy req.image = true → truthy req.mask = true →
      (∀ i, i < 60 → nonTerminal (res i)) →
      POST req res = (500, ApiResponse.err "Timeout waiting for image generation")) := by
  constructor
  · intro req res N u hp hi hm hN hnt he hs ho hu
    have hloop : pollLoop res = Except.ok (outputToUrl (res N).output) := by
      have := pollLoopAux_succeeds res N maxAttempts 0 (by simpa [maxAttempts] using hN)
        (fun i h1 h2 => hnt i (by omega)) (by simpa using he) (by simpa using hs)
      simpa [pollLoop] using this
    rw [ho] at hloop
    simp [POST, hp, hi, hm, hloop, hu]
  · intro req res hp hi hm hnt
    have hloop : pollLoop res = Except.ok none := by
      have := pollLoopAux_exhaust res maxAttempts 0
        (fun i h1 h2 => hnt i (by simpa [maxAttempts] using h2))
      simpa [pollLoop] using this
    simp [POST, hp, hi, hm, hloop]

/-- Witness for C9 amended: a trace that succeeds on poll 0 with a URL
yields 200 with that URL, and a trace that never terminates yields the
Timeout error as 500. -/
theorem poll_loop_terminal_behaviour_witness :
    POST ⟨some "p", some "img", some "mask", some 640, some 480⟩
      (fun _ => ⟨none, "succeeded", JsonOutput.str "https://example.com/out.png"⟩)
      = (200, ApiResponse.ok "https://example.com/out.png") ∧
    POST ⟨some "p", some "img", some "mask", none, none⟩
      (fun _ => ⟨none, "processing", JsonOutput.null⟩)
      = (500, ApiResponse.err "Timeout waiting for image generation") :=
  ⟨poll_loop_terminal_behaviour.1 ⟨some "p", some "img", some "mask", some 640, some 480⟩
      (fun _ => ⟨none, "succeeded", JsonOutput.str "https://example.com/out.png"⟩) 0
      "https://example.com/out.png"
      (by simp [truthy]) (by simp [truthy]) (by simp [truthy])
      (by norm_num)
      (fun i hi => absurd hi (Nat.not_lt_zero i))
      (by simp [truthy]) rfl rfl (by simp),
   poll_loop_terminal_behaviour.2 ⟨some "p", some "img", some "mask", none, none⟩
      (fun _ => ⟨none, "processing", JsonOutput.null⟩)
      (by simp [truthy]) (by simp [truthy]) (by simp [truthy])
      (fun i _ => ⟨rfl, by simp, by simp⟩)⟩

/-- C10: the edit handler's response depends only on the prompt, image
and mask fields of the request (and the service trace); two requests
agreeing on those three fields — in particular two requests differing
only in their width and height fields — receive identical responses. -/
theorem response_independent_of_dimensions
    (r1 r2 : EditRequest) (res : ℕ → PollResult)
    (hp : r1.prompt = r2.prompt) (hi : r1.image = r2.image) (hm : r1.mask = r2.mask) :
    POST r1 res = POST r2 res := by
  simp only [POST, hp, hi, hm]

/-- Witness for C10: two concrete requests differing only in width and
height get the same response. -/
theorem response_independent_of_dimensions_witness :
    POST ⟨some "p", some "img", some "mask", some 100, some 100⟩
      (fun _ => ⟨none, "succeeded", JsonOutput.str "u"⟩)
      = POST ⟨some "p", some "img", some "mask", some 1024, none⟩
      (fun _ => ⟨none, "succeeded", JsonOutput.str "u"⟩) :=
  response_independent_of_dimensions
    ⟨some "p", some "img", some "mask", some 100, some 100⟩
    ⟨some "p", some "img", some "mask", some 1024, none⟩
    (fun _ => ⟨none, "succeeded", JsonOutput.str "u"⟩) rfl rfl rfl
